import Mathlib

/-!
Shallow embedding of the metric-derivation and scoring engine of
`app.py` (Creative Intelligence Platform): the `calculate_motion_scores`
pipeline, the `generate_insights` rule set, the benchmark sliders, the
KPI cards and the executive-summary block.

A dataframe is modelled as an ordered association list from column name
to a list of cell values, matching pandas column semantics: assignment
replaces a column in place when it exists and appends it at the end
otherwise.  Numbers are exact rationals; `round` is round-half-to-even
as in numpy and Python.
-/

set_option allowUnsafeReducibility true in
attribute [semireducible] Rat.mul Rat.inv Rat.add Rat.sub Rat.ofScientific

/-- A cell value: numeric or text. -/
inductive Val where
  | num : ℚ → Val
  | str : String → Val
deriving DecidableEq

/-- Numeric content of a cell; the text case is junk that the verified
paths never feed into arithmetic. -/
def Val.toQ : Val → ℚ
  | .num q => q
  | .str _ => 0

/-- A dataframe: ordered association list of column name to column values. -/
abbrev Frame := List (String × List Val)

/-- `c in df.columns`. -/
def hascol (df : Frame) (c : String) : Bool :=
  df.any (fun p => p.1 == c)

/-- `df[c]`: the values of the first column named `c` (empty when absent). -/
def getcol (df : Frame) (c : String) : List Val :=
  ((df.find? (fun p => p.1 == c)).map Prod.snd).getD []

/-- `df[c] = v`: pandas column assignment, replacing in place when present
and appending at the end otherwise. -/
def setcol (df : Frame) (c : String) (v : List Val) : Frame :=
  if hascol df c then df.map (fun p => if p.1 == c then (c, v) else p)
  else df ++ [(c, v)]

/-- `len(df)`: the row count, read off the first column. -/
def nRows (df : Frame) : ℕ :=
  match df with
  | [] => 0
  | p :: _ => p.2.length

/-- The floor of a rational, in executable form (equal to `⌊q⌋`). -/
def qfloor (q : ℚ) : ℤ := q.num / q.den

/-- The smaller of two rationals, in executable form (equal to `min a b`,
and to Python `min(a, b)`). -/
def qmin (a b : ℚ) : ℚ := if a ≤ b then a else b

/-- Round half to even to an integer (Python `round`, numpy `.round(0)`). -/
def roundHE (q : ℚ) : ℤ :=
  let f := qfloor q
  let r := q - f
  if r < 1 / 2 then f
  else if 1 / 2 < r then f + 1
  else if f % 2 = 0 then f else f + 1

/-- Round to `nd` decimal places, half to even (`round(x, nd)`, `.round(nd)`). -/
def roundTo (nd : ℕ) (q : ℚ) : ℚ :=
  (roundHE (q * 10 ^ nd) : ℚ) / 10 ^ nd

/-- `st.session_state.benchmarks`: the user-adjustable benchmark configuration. -/
structure Benchmarks where
  thumb_stop_rate : ℚ
  hook_rate : ℚ
  hold_rate : ℚ
  ctr : ℚ
  retention_15s : ℚ
  avg_watch_time : ℚ
deriving DecidableEq

/-- The default benchmark values installed into session state. -/
def defaultBenchmarks : Benchmarks := ⟨25, 8, 35, 3 / 2, 25, 12⟩

/-- The scoring lambda `min(100, (x / benchmark) * 50)` used for all four scores. -/
def benchScore (b x : ℚ) : ℚ := qmin 100 (x / b * 50)

/-- Thumb-stop block of `calculate_motion_scores`: rate and score, only when
both raw inputs are present. -/
def thumbStage (bm : Benchmarks) (df : Frame) : Frame :=
  if hascol df "Three-second video views" && hascol df "Impressions" then
    let rate := List.zipWith
      (fun a b => Val.num (roundTo 2 (a.toQ / b.toQ * 100)))
      (getcol df "Three-second video views") (getcol df "Impressions")
    let d := setcol df "Thumb-stop Rate (%)" rate
    setcol d "Thumb-stop Score"
      ((getcol d "Thumb-stop Rate (%)").map
        (fun v => Val.num (benchScore bm.thumb_stop_rate v.toQ)))
  else df

/-- Hook block: unconditionally assigns `Hook Rate (%)` (the thumb-stop rate
column when it exists, the scalar 0 broadcast over all rows otherwise) and
then `Hook Score`. -/
def hookStage (bm : Benchmarks) (df : Frame) : Frame :=
  let hookRate :=
    if hascol df "Thumb-stop Rate (%)" then getcol df "Thumb-stop Rate (%)"
    else List.replicate (nRows df) (Val.num 0)
  let d := setcol df "Hook Rate (%)" hookRate
  setcol d "Hook Score"
    ((getcol d "Hook Rate (%)").map
      (fun v => Val.num (benchScore bm.hook_rate v.toQ)))

/-- Hold block: per-row guarded division, rate and score, only when both raw
inputs are present. -/
def holdStage (bm : Benchmarks) (df : Frame) : Frame :=
  if hascol df "ThruPlay Actions" && hascol df "Three-second video views" then
    let hold := List.zipWith
      (fun tp tsv =>
        Val.num (if 0 < tsv.toQ then roundTo 2 (tp.toQ / tsv.toQ * 100) else 0))
      (getcol df "ThruPlay Actions") (getcol df "Three-second video views")
    let d := setcol df "Hold Rate (%)" hold
    setcol d "Hold Score"
      ((getcol d "Hold Rate (%)").map
        (fun v => Val.num (benchScore bm.hold_rate v.toQ)))
  else df

/-- Click block: CTR and score, only when both raw inputs are present. -/
def clickStage (bm : Benchmarks) (df : Frame) : Frame :=
  if hascol df "Link Clicks" && hascol df "Impressions" then
    let ctrv := List.zipWith
      (fun lc imp => Val.num (roundTo 3 (lc.toQ / imp.toQ * 100)))
      (getcol df "Link Clicks") (getcol df "Impressions")
    let d := setcol df "CTR (%)" ctrv
    setcol d "Click Score"
      ((getcol d "CTR (%)").map
        (fun v => Val.num (benchScore bm.ctr v.toQ)))
  else df

/-- The four individual score columns the composite draws from. -/
def scoreColumns : List String :=
  ["Thumb-stop Score", "Hook Score", "Hold Score", "Click Score"]

/-- `df[cs].mean(axis=1).round(0)`: row-wise mean over the given columns,
rounded half to even to an integer. -/
def rowMeans (df : Frame) (cs : List String) : List Val :=
  (List.range (nRows df)).map (fun i =>
    Val.num ((roundHE
      ((cs.map (fun c => ((getcol df c).getD i (Val.num 0)).toQ)).sum / cs.length) : ℚ)))

/-- Overall block: the composite score over whichever individual score
columns are present. -/
def overallStage (df : Frame) : Frame :=
  let available := scoreColumns.filter (fun c => hascol df c)
  if available.isEmpty then df
  else setcol df "Overall Score" (rowMeans df available)

/-- `get_tier` from `calculate_motion_scores`. -/
def get_tier (score : ℚ) : String :=
  if 80 ≤ score then "🏆 Excellent"
  else if 60 ≤ score then "✅ Good"
  else if 40 ≤ score then "⚠️ Average"
  else "🔴 Poor"

/-- Tier block: label every row from its overall score. -/
def tierStage (df : Frame) : Frame :=
  if hascol df "Overall Score" then
    setcol df "Performance Tier"
      ((getcol df "Overall Score").map (fun v => Val.str (get_tier v.toQ)))
  else df

/-- The first four blocks of `calculate_motion_scores`: all individual rate
and score columns. -/
def stage5 (bm : Benchmarks) (df : Frame) : Frame :=
  clickStage bm (holdStage bm (hookStage bm (thumbStage bm df)))

/-- `calculate_motion_scores` from `app.py`, as its sequence of blocks. -/
def calculate_motion_scores (bm : Benchmarks) (df : Frame) : Frame :=
  tierStage (overallStage (stage5 bm df))

/-- The ten column names `calculate_motion_scores` can add. -/
def derivedNames : List String :=
  ["Thumb-stop Rate (%)", "Thumb-stop Score", "Hook Rate (%)", "Hook Score",
   "Hold Rate (%)", "Hold Score", "CTR (%)", "Click Score",
   "Overall Score", "Performance Tier"]

/-- Left-pad a digit string with zeros to length `n`. -/
def padZeros (n : ℕ) (s : String) : String :=
  String.mk (List.replicate (n - s.length) '0') ++ s

/-- Python fixed-point formatting `x:.ndf` (round half to even). -/
def fmtFixed (nd : ℕ) (q : ℚ) : String :=
  let m := roundHE (q * 10 ^ nd)
  let sign := if m < 0 then "-" else ""
  let a := m.natAbs
  if nd = 0 then sign ++ toString a
  else sign ++ toString (a / 10 ^ nd) ++ "." ++ padZeros nd (toString (a % 10 ^ nd))

/-- Python `str()` of a benchmark value: exact for the integral values the
thumb-stop slider produces, one decimal otherwise. -/
def pyStr (q : ℚ) : String :=
  if q.den = 1 then toString q.num else fmtFixed 1 q

/-- The fields of a row that `generate_insights` may read. -/
structure InsightRow where
  thumbRate : Option ℚ
  holdRate : Option ℚ
  ctrPct : Option ℚ
  avgWatchTime : Option ℚ

/-- One insight record: severity tag and interpolated message. -/
structure Insight where
  type : String
  message : String
deriving DecidableEq

/-- `generate_insights` from `app.py`. -/
def generate_insights (bm : Benchmarks) (row : InsightRow) : List Insight :=
  let thumb : List Insight :=
    match row.thumbRate with
    | none => []
    | some rate =>
      if rate < bm.thumb_stop_rate * (7 / 10) then
        [⟨"critical", "⚠️ Thumb-stop rate (" ++ fmtFixed 1 rate ++
          "%) is significantly below benchmark (" ++ pyStr bm.thumb_stop_rate ++
          "%). Consider a more engaging first frame."⟩]
      else if bm.thumb_stop_rate * (13 / 10) < rate then
        [⟨"success", "🎯 Excellent thumb-stop rate (" ++ fmtFixed 1 rate ++
          "%)! This opening is " ++ fmtFixed 0 ((rate / bm.thumb_stop_rate - 1) * 100) ++
          "% above benchmark."⟩]
      else []
  let hold : List Insight :=
    match row.holdRate with
    | none => []
    | some h =>
      if h < 20 then
        [⟨"warning", "📉 Low hold rate (" ++ fmtFixed 1 h ++
          "%). The content loses viewers quickly after the hook. Review pacing between 3-15 seconds."⟩]
      else if 40 < h then
        [⟨"success", "💪 Strong hold rate (" ++ fmtFixed 1 h ++
          "%). This creative maintains attention exceptionally well."⟩]
      else []
  let click : List Insight :=
    match row.ctrPct with
    | none => []
    | some c =>
      if c < 1 / 2 then
        [⟨"warning", "🔗 Low CTR (" ++ fmtFixed 2 c ++
          "%). The CTA may need to be stronger or appear earlier."⟩]
      else []
  let watch : List Insight :=
    match row.avgWatchTime with
    | none => []
    | some awt =>
      if awt < 5 then
        [⟨"critical", "⏱️ Very low average watch time (" ++ fmtFixed 1 awt ++
          "s). This creative needs significant optimization."⟩]
      else if 15 < awt then
        [⟨"success", "⭐ Exceptional watch time (" ++ fmtFixed 1 awt ++
          "s). Use this as a template for other creatives."⟩]
      else []
  thumb ++ hold ++ click ++ watch

/-- A Streamlit slider only ever reports a value inside its `[lo, hi]` range. -/
def slider (lo hi x : ℚ) : ℚ := max lo (min hi x)

/-- The benchmark-settings expander: four sliders with positive ranges; the
two remaining thresholds keep their (positive) defaults. -/
def updateBenchmarks (tsr hr hld c : ℚ) : Benchmarks :=
  ⟨slider 10 50 tsr, slider 3 15 hr, slider 20 50 hld, slider (1 / 2) 3 c, 25, 12⟩

/-- `Series.mean()`: `none` models the NaN that pandas produces on an empty
series. -/
def seriesMean (xs : List ℚ) : Option ℚ :=
  if xs.length = 0 then none else some (xs.sum / xs.length)

/-- Numeric view of a column. -/
def numsOf (df : Frame) (c : String) : List ℚ :=
  (getcol df c).map Val.toQ

/-- The aggregate fields of the executive-summary block (tab 5). -/
structure ExecSummary where
  totalCreatives : ℕ
  averageScore : Option ℚ
  excellentCount : ℕ
  goodCount : ℕ
  needsWork : ℕ
deriving DecidableEq

/-- Executive-summary block: runs whenever the Overall Score column exists,
with no row-count guard of any kind. -/
def execSummary (df : Frame) : Option ExecSummary :=
  if hascol df "Overall Score" then
    let s := numsOf df "Overall Score"
    some ⟨nRows df,
          seriesMean s,
          (s.filter (fun x => decide (80 ≤ x))).length,
          (s.filter (fun x => decide (60 ≤ x) && decide (x < 80))).length,
          (s.filter (fun x => decide (x < 60))).length⟩
  else none

/-- The fifth KPI card of tab 1: `excellent / total_creatives * 100`; `none`
models the ZeroDivisionError raised on a dataset with zero rows. -/
def topPerformersPct (df : Frame) : Option ℚ :=
  let total := nRows df
  let excellent :=
    if hascol df "Overall Score" then
      ((numsOf df "Overall Score").filter (fun x => decide (80 ≤ x))).length
    else 0
  if total = 0 then none else some ((excellent : ℚ) / total * 100)

/-- Full-input one-row fixture. -/
def dfAll : Frame :=
  [("Impressions", [Val.num 10000]),
   ("Three-second video views", [Val.num 500]),
   ("ThruPlay Actions", [Val.num 100]),
   ("Link Clicks", [Val.num 50])]

/-- End-to-end scenario 1 fixture. -/
def dfScenario1 : Frame :=
  [("Impressions", [Val.num 10000]),
   ("Three-second video views", [Val.num 500])]

/-- End-to-end scenarios 2 and 3 fixture: one row with zero numerator, one
row with zero denominator. -/
def dfHoldRows : Frame :=
  [("Three-second video views", [Val.num 800, Val.num 0]),
   ("ThruPlay Actions", [Val.num 0, Val.num 0])]

/-- End-to-end scenario 6 fixture: five rows whose overall scores come out
as 90, 75, 55, 35 and 20. -/
def dfTiers : Frame :=
  [("Thumb-stop Rate (%)",
    [Val.num (72 / 5), Val.num 12, Val.num (44 / 5), Val.num (28 / 5), Val.num (16 / 5)])]

/-- Fixture with no Impressions column. -/
def dfNoImpressions : Frame :=
  [("Creative Name", [Val.str "A"])]

/-- Fixture with a column but zero rows. -/
def dfEmptyRows : Frame :=
  [("Overall Score", [])]

/-! ### Bridge lemmas for the executable floor and min -/

theorem qfloor_eq_floor (q : ℚ) : qfloor q = ⌊q⌋ := by
  rw [Rat.floor_def]; rfl

theorem qmin_eq_min (a b : ℚ) : qmin a b = min a b := by
  unfold qmin
  by_cases h : a ≤ b
  · rw [if_pos h, min_eq_left h]
  · rw [if_neg h, min_eq_right (le_of_not_le h)]

/-! ### Bounds for round-half-to-even -/

theorem roundHE_nonneg {q : ℚ} (h : 0 ≤ q) : 0 ≤ roundHE q := by
  simp only [roundHE, qfloor_eq_floor]
  have hf : (0 : ℤ) ≤ ⌊q⌋ := Int.floor_nonneg.mpr h
  split_ifs <;> omega

theorem roundHE_le {q : ℚ} {n : ℤ} (h : q ≤ (n : ℚ)) : roundHE q ≤ n := by
  simp only [roundHE, qfloor_eq_floor]
  have hf : ⌊q⌋ ≤ n := by
    have := Int.floor_le_floor h
    rwa [Int.floor_intCast] at this
  have hfl : (⌊q⌋ : ℚ) ≤ q := Int.floor_le q
  split_ifs with h1 h2 h3
  · exact hf
  · have hr : (1 : ℚ) / 2 ≤ q - ⌊q⌋ := le_of_not_lt h1
    have hlt : (⌊q⌋ : ℚ) < (n : ℚ) := by linarith
    have : ⌊q⌋ < n := by exact_mod_cast hlt
    omega
  · exact hf
  · have hr : (1 : ℚ) / 2 ≤ q - ⌊q⌋ := le_of_not_lt h1
    have hlt : (⌊q⌋ : ℚ) < (n : ℚ) := by linarith
    have : ⌊q⌋ < n := by exact_mod_cast hlt
    omega

theorem roundTo_nonneg (nd : ℕ) {q : ℚ} (h : 0 ≤ q) : 0 ≤ roundTo nd q := by
  unfold roundTo
  apply div_nonneg
  · exact_mod_cast roundHE_nonneg (by positivity)
  · positivity

/-! ### Association-list frame lemmas -/

theorem hascol_cons (p : String × List Val) (t : Frame) (c : String) :
    hascol (p :: t) c = ((p.1 == c) || hascol t c) := by
  simp [hascol]

theorem getcol_cons (p : String × List Val) (t : Frame) (c : String) :
    getcol (p :: t) c = if p.1 == c then p.2 else getcol t c := by
  by_cases hp : (p.1 == c) <;> simp [getcol, List.find?_cons, hp]

theorem hascol_append (df e : Frame) (c : String) :
    hascol (df ++ e) c = (hascol df c || hascol e c) := by
  simp [hascol]

theorem getcol_append_of_none {df : Frame} {c : String} (h : hascol df c = false)
    (e : Frame) : getcol (df ++ e) c = getcol e c := by
  induction df with
  | nil => rfl
  | cons p t ih =>
    rw [hascol_cons] at h
    have hp : (p.1 == c) = false := by
      cases hb : (p.1 == c) <;> simp [hb] at h ⊢
    have ht : hascol t c = false := by
      cases hb : hascol t c <;> simp [hp, hb] at h ⊢
    rw [List.cons_append, getcol_cons, if_neg (by simp [hp]), ih ht]

theorem setcol_fresh {df : Frame} {c : String} (h : hascol df c = false)
    (v : List Val) : setcol df c v = df ++ [(c, v)] := by
  simp [setcol, h]

theorem setcol_append_fresh {df e : Frame} {c : String}
    (h1 : hascol df c = false) (h2 : hascol e c = false) (v : List Val) :
    setcol (df ++ e) c v = df ++ (e ++ [(c, v)]) := by
  have h : hascol (df ++ e) c = false := by rw [hascol_append, h1, h2]; rfl
  rw [setcol_fresh h, List.append_assoc]

theorem getcol_setcol_self (df : Frame) (c : String) (v : List Val) :
    getcol (setcol df c v) c = v := by
  unfold setcol
  split
  · rename_i h
    induction df with
    | nil => simp [hascol] at h
    | cons p t ih =>
      by_cases hp : (p.1 == c)
      · rw [List.map_cons, if_pos hp, getcol_cons]
        simp
      · rw [hascol_cons] at h
        have hpf : (p.1 == c) = false := by simpa using hp
        have ht : hascol t c = true := by simpa [hpf] using h
        rw [List.map_cons, if_neg (by simp [hpf]), getcol_cons,
          if_neg (by simp [hpf])]
        exact ih ht
  · rename_i h
    have h' : hascol df c = false := by simpa using h
    rw [getcol_append_of_none h', getcol_cons]
    simp

theorem getcol_append_single_ne {c c' : String} (h : (c == c') = false)
    (df : Frame) (v : List Val) :
    getcol (df ++ [(c, v)]) c' = getcol df c' := by
  induction df with
  | nil => simp [getcol, List.find?_cons, h]
  | cons p t ih =>
    rw [List.cons_append, getcol_cons, getcol_cons]
    split
    · rfl
    · exact ih

theorem getcol_map_set_ne {c c' : String} (hcc : (c == c') = false)
    (v : List Val) (df : Frame) :
    getcol (df.map (fun p => if p.1 == c then (c, v) else p)) c'
      = getcol df c' := by
  induction df with
  | nil => rfl
  | cons p t ih =>
    by_cases hp : (p.1 == c)
    · have hpc : p.1 = c := by simpa using hp
      have hne2 : (p.1 == c') = false := by rw [hpc]; exact hcc
      rw [List.map_cons, if_pos hp, getcol_cons, getcol_cons,
        if_neg (by simp [hcc]), if_neg (by simp [hne2]), ih]
    · rw [List.map_cons, if_neg hp, getcol_cons, getcol_cons, ih]

theorem hascol_map_set_ne {c c' : String} (hcc : (c == c') = false)
    (v : List Val) (df : Frame) :
    hascol (df.map (fun p => if p.1 == c then (c, v) else p)) c'
      = hascol df c' := by
  induction df with
  | nil => rfl
  | cons p t ih =>
    by_cases hp : (p.1 == c)
    · have hpc : p.1 = c := by simpa using hp
      have hne2 : (p.1 == c') = false := by rw [hpc]; exact hcc
      rw [List.map_cons, if_pos hp, hascol_cons, hascol_cons, ih, hcc, hne2]
    · rw [List.map_cons, if_neg hp, hascol_cons, hascol_cons, ih]

theorem getcol_setcol_ne {c c' : String} (h : c' ≠ c) (df : Frame)
    (v : List Val) : getcol (setcol df c v) c' = getcol df c' := by
  have hcc : (c == c') = false := beq_eq_false_iff_ne.mpr (Ne.symm h)
  unfold setcol
  split
  · exact getcol_map_set_ne hcc v df
  · exact getcol_append_single_ne hcc df v

theorem hascol_setcol_self (df : Frame) (c : String) (v : List Val) :
    hascol (setcol df c v) c = true := by
  unfold setcol
  split
  · rename_i h
    induction df with
    | nil => simp [hascol] at h
    | cons p t ih =>
      by_cases hp : (p.1 == c)
      · rw [List.map_cons, if_pos hp, hascol_cons]
        simp
      · rw [hascol_cons] at h
        have hpf : (p.1 == c) = false := by simpa using hp
        have ht : hascol t c = true := by simpa [hpf] using h
        have hm := ih ht
        rw [List.map_cons, if_neg (by simp [hpf]), hascol_cons, hm]
        simp
  · rw [hascol_append, hascol_cons]
    simp

theorem hascol_setcol_ne {c c' : String} (h : c' ≠ c) (df : Frame)
    (v : List Val) : hascol (setcol df c v) c' = hascol df c' := by
  have hcc : (c == c') = false := beq_eq_false_iff_ne.mpr (Ne.symm h)
  unfold setcol
  split
  · exact hascol_map_set_ne hcc v df
  · rw [hascol_append, hascol_cons]
    simp [hcc, hascol]

/-! ### Per-stage preservation of unrelated columns -/

theorem getcol_thumbStage_ne {c : String} (h1 : c ≠ "Thumb-stop Rate (%)")
    (h2 : c ≠ "Thumb-stop Score") (bm : Benchmarks) (df : Frame) :
    getcol (thumbStage bm df) c = getcol df c := by
  unfold thumbStage
  split
  · simp only [getcol_setcol_ne h2, getcol_setcol_ne h1]
  · rfl

theorem hascol_thumbStage_ne {c : String} (h1 : c ≠ "Thumb-stop Rate (%)")
    (h2 : c ≠ "Thumb-stop Score") (bm : Benchmarks) (df : Frame) :
    hascol (thumbStage bm df) c = hascol df c := by
  unfold thumbStage
  split
  · simp only [hascol_setcol_ne h2, hascol_setcol_ne h1]
  · rfl

theorem getcol_hookStage_ne {c : String} (h1 : c ≠ "Hook Rate (%)")
    (h2 : c ≠ "Hook Score") (bm : Benchmarks) (df : Frame) :
    getcol (hookStage bm df) c = getcol df c := by
  unfold hookStage
  simp only [getcol_setcol_ne h2, getcol_setcol_ne h1]

theorem hascol_hookStage_ne {c : String} (h1 : c ≠ "Hook Rate (%)")
    (h2 : c ≠ "Hook Score") (bm : Benchmarks) (df : Frame) :
    hascol (hookStage bm df) c = hascol df c := by
  unfold hookStage
  simp only [hascol_setcol_ne h2, hascol_setcol_ne h1]

theorem getcol_holdStage_ne {c : String} (h1 : c ≠ "Hold Rate (%)")
    (h2 : c ≠ "Hold Score") (bm : Benchmarks) (df : Frame) :
    getcol (holdStage bm df) c = getcol df c := by
  unfold holdStage
  split
  · simp only [getcol_setcol_ne h2, getcol_setcol_ne h1]
  · rfl

theorem hascol_holdStage_ne {c : String} (h1 : c ≠ "Hold Rate (%)")
    (h2 : c ≠ "Hold Score") (bm : Benchmarks) (df : Frame) :
    hascol (holdStage bm df) c = hascol df c := by
  unfold holdStage
  split
  · simp only [hascol_setcol_ne h2, hascol_setcol_ne h1]
  · rfl

theorem getcol_clickStage_ne {c : String} (h1 : c ≠ "CTR (%)")
    (h2 : c ≠ "Click Score") (bm : Benchmarks) (df : Frame) :
    getcol (clickStage bm df) c = getcol df c := by
  unfold clickStage
  split
  · simp only [getcol_setcol_ne h2, getcol_setcol_ne h1]
  · rfl

theorem hascol_clickStage_ne {c : String} (h1 : c ≠ "CTR (%)")
    (h2 : c ≠ "Click Score") (bm : Benchmarks) (df : Frame) :
    hascol (clickStage bm df) c = hascol df c := by
  unfold clickStage
  split
  · simp only [hascol_setcol_ne h2, hascol_setcol_ne h1]
  · rfl

theorem getcol_overallStage_ne {c : String} (h1 : c ≠ "Overall Score")
    (df : Frame) : getcol (overallStage df) c = getcol df c := by
  unfold overallStage
  dsimp only
  split
  · rfl
  · simp only [getcol_setcol_ne h1]

theorem hascol_overallStage_ne {c : String} (h1 : c ≠ "Overall Score")
    (df : Frame) : hascol (overallStage df) c = hascol df c := by
  unfold overallStage
  dsimp only
  split
  · rfl
  · simp only [hascol_setcol_ne h1]

theorem getcol_tierStage_ne {c : String} (h1 : c ≠ "Performance Tier")
    (df : Frame) : getcol (tierStage df) c = getcol df c := by
  unfold tierStage
  split
  · simp only [getcol_setcol_ne h1]
  · rfl

theorem hascol_tierStage_ne {c : String} (h1 : c ≠ "Performance Tier")
    (df : Frame) : hascol (tierStage df) c = hascol df c := by
  unfold tierStage
  split
  · simp only [hascol_setcol_ne h1]
  · rfl

theorem zipWith_getElem? {α β γ : Type} (f : α → β → γ) (l1 : List α)
    (l2 : List β) (i : ℕ) (a : α) (b : β)
    (h1 : l1[i]? = some a) (h2 : l2[i]? = some b) :
    (List.zipWith f l1 l2)[i]? = some (f a b) := by
  induction l1 generalizing l2 i with
  | nil => simp at h1
  | cons x xs ih =>
    cases l2 with
    | nil => simp at h2
    | cons y ys =>
      cases i with
      | zero =>
        simp at h1 h2
        simp [h1, h2]
      | succ n =>
        simp at h1 h2
        simpa using ih ys n h1 h2

/-! ### Output-level column computations -/

theorem calc_thumb_cols (bm : Benchmarks) (df : Frame)
    (h3 : hascol df "Three-second video views" = true)
    (hI : hascol df "Impressions" = true) :
    getcol (calculate_motion_scores bm df) "Thumb-stop Rate (%)" =
      List.zipWith (fun a b => Val.num (roundTo 2 (a.toQ / b.toQ * 100)))
        (getcol df "Three-second video views") (getcol df "Impressions") ∧
    getcol (calculate_motion_scores bm df) "Thumb-stop Score" =
      (List.zipWith (fun a b => Val.num (roundTo 2 (a.toQ / b.toQ * 100)))
        (getcol df "Three-second video views") (getcol df "Impressions")).map
        (fun v => Val.num (benchScore bm.thumb_stop_rate v.toQ)) := by
  unfold calculate_motion_scores stage5 thumbStage
  rw [h3, hI]
  constructor
  · simp only [getcol_tierStage_ne (show ("Thumb-stop Rate (%)" : String) ≠ "Performance Tier" from by decide),
      getcol_overallStage_ne (show ("Thumb-stop Rate (%)" : String) ≠ "Overall Score" from by decide),
      getcol_clickStage_ne (show ("Thumb-stop Rate (%)" : String) ≠ "CTR (%)" from by decide)
        (show ("Thumb-stop Rate (%)" : String) ≠ "Click Score" from by decide),
      getcol_holdStage_ne (show ("Thumb-stop Rate (%)" : String) ≠ "Hold Rate (%)" from by decide)
        (show ("Thumb-stop Rate (%)" : String) ≠ "Hold Score" from by decide),
      getcol_hookStage_ne (show ("Thumb-stop Rate (%)" : String) ≠ "Hook Rate (%)" from by decide)
        (show ("Thumb-stop Rate (%)" : String) ≠ "Hook Score" from by decide),
      Bool.and_self, if_true,
      getcol_setcol_ne (show ("Thumb-stop Rate (%)" : String) ≠ "Thumb-stop Score" from by decide),
      getcol_setcol_self]
  · simp only [getcol_tierStage_ne (show ("Thumb-stop Score" : String) ≠ "Performance Tier" from by decide),
      getcol_overallStage_ne (show ("Thumb-stop Score" : String) ≠ "Overall Score" from by decide),
      getcol_clickStage_ne (show ("Thumb-stop Score" : String) ≠ "CTR (%)" from by decide)
        (show ("Thumb-stop Score" : String) ≠ "Click Score" from by decide),
      getcol_holdStage_ne (show ("Thumb-stop Score" : String) ≠ "Hold Rate (%)" from by decide)
        (show ("Thumb-stop Score" : String) ≠ "Hold Score" from by decide),
      getcol_hookStage_ne (show ("Thumb-stop Score" : String) ≠ "Hook Rate (%)" from by decide)
        (show ("Thumb-stop Score" : String) ≠ "Hook Score" from by decide),
      Bool.and_self, if_true, getcol_setcol_self]

theorem getcol_calc_to_stage5 (bm : Benchmarks) (df : Frame) {c : String}
    (h1 : c ≠ "Overall Score") (h2 : c ≠ "Performance Tier") :
    getcol (calculate_motion_scores bm df) c = getcol (stage5 bm df) c := by
  unfold calculate_motion_scores
  rw [getcol_tierStage_ne h2, getcol_overallStage_ne h1]

theorem hascol_calc_to_stage5 (bm : Benchmarks) (df : Frame) {c : String}
    (h1 : c ≠ "Overall Score") (h2 : c ≠ "Performance Tier") :
    hascol (calculate_motion_scores bm df) c = hascol (stage5 bm df) c := by
  unfold calculate_motion_scores
  rw [hascol_tierStage_ne h2, hascol_overallStage_ne h1]

theorem getcol_calc_to_hold (bm : Benchmarks) (df : Frame) {c : String}
    (h1 : c ≠ "CTR (%)") (h2 : c ≠ "Click Score") (h3 : c ≠ "Overall Score")
    (h4 : c ≠ "Performance Tier") :
    getcol (calculate_motion_scores bm df) c
      = getcol (holdStage bm (hookStage bm (thumbStage bm df))) c := by
  rw [getcol_calc_to_stage5 bm df h3 h4]
  unfold stage5
  rw [getcol_clickStage_ne h1 h2]

theorem hascol_calc_to_hold (bm : Benchmarks) (df : Frame) {c : String}
    (h1 : c ≠ "CTR (%)") (h2 : c ≠ "Click Score") (h3 : c ≠ "Overall Score")
    (h4 : c ≠ "Performance Tier") :
    hascol (calculate_motion_scores bm df) c
      = hascol (holdStage bm (hookStage bm (thumbStage bm df))) c := by
  rw [hascol_calc_to_stage5 bm df h3 h4]
  unfold stage5
  rw [hascol_clickStage_ne h1 h2]

theorem getcol_calc_to_hook (bm : Benchmarks) (df : Frame) {c : String}
    (h1 : c ≠ "CTR (%)") (h2 : c ≠ "Click Score") (h3 : c ≠ "Overall Score")
    (h4 : c ≠ "Performance Tier") (h5 : c ≠ "Hold Rate (%)")
    (h6 : c ≠ "Hold Score") :
    getcol (calculate_motion_scores bm df) c
      = getcol (hookStage bm (thumbStage bm df)) c := by
  rw [getcol_calc_to_hold bm df h1 h2 h3 h4, getcol_holdStage_ne h5 h6]

theorem hascol_calc_to_hook (bm : Benchmarks) (df : Frame) {c : String}
    (h1 : c ≠ "CTR (%)") (h2 : c ≠ "Click Score") (h3 : c ≠ "Overall Score")
    (h4 : c ≠ "Performance Tier") (h5 : c ≠ "Hold Rate (%)")
    (h6 : c ≠ "Hold Score") :
    hascol (calculate_motion_scores bm df) c
      = hascol (hookStage bm (thumbStage bm df)) c := by
  rw [hascol_calc_to_hold bm df h1 h2 h3 h4, hascol_holdStage_ne h5 h6]

theorem getcol_prehold_raw (bm : Benchmarks) (df : Frame) {c : String}
    (h1 : c ≠ "Thumb-stop Rate (%)") (h2 : c ≠ "Thumb-stop Score")
    (h3 : c ≠ "Hook Rate (%)") (h4 : c ≠ "Hook Score") :
    getcol (hookStage bm (thumbStage bm df)) c = getcol df c := by
  rw [getcol_hookStage_ne h3 h4, getcol_thumbStage_ne h1 h2]

theorem hascol_prehold_raw (bm : Benchmarks) (df : Frame) {c : String}
    (h1 : c ≠ "Thumb-stop Rate (%)") (h2 : c ≠ "Thumb-stop Score")
    (h3 : c ≠ "Hook Rate (%)") (h4 : c ≠ "Hook Score") :
    hascol (hookStage bm (thumbStage bm df)) c = hascol df c := by
  rw [hascol_hookStage_ne h3 h4, hascol_thumbStage_ne h1 h2]

theorem calc_hold_cols (bm : Benchmarks) (df : Frame)
    (hTP : hascol df "ThruPlay Actions" = true)
    (h3 : hascol df "Three-second video views" = true) :
    getcol (calculate_motion_scores bm df) "Hold Rate (%)" =
      List.zipWith (fun tp tsv =>
          Val.num (if 0 < tsv.toQ then roundTo 2 (tp.toQ / tsv.toQ * 100) else 0))
        (getcol df "ThruPlay Actions") (getcol df "Three-second video views") ∧
    getcol (calculate_motion_scores bm df) "Hold Score" =
      (List.zipWith (fun tp tsv =>
          Val.num (if 0 < tsv.toQ then roundTo 2 (tp.toQ / tsv.toQ * 100) else 0))
        (getcol df "ThruPlay Actions") (getcol df "Three-second video views")).map
        (fun v => Val.num (benchScore bm.hold_rate v.toQ)) := by
  have a1 : hascol (hookStage bm (thumbStage bm df)) "ThruPlay Actions" = true := by
    rw [hascol_prehold_raw bm df (by decide) (by decide) (by decide) (by decide), hTP]
  have a2 : hascol (hookStage bm (thumbStage bm df)) "Three-second video views" = true := by
    rw [hascol_prehold_raw bm df (by decide) (by decide) (by decide) (by decide), h3]
  have e1 : getcol (hookStage bm (thumbStage bm df)) "ThruPlay Actions"
      = getcol df "ThruPlay Actions" :=
    getcol_prehold_raw bm df (by decide) (by decide) (by decide) (by decide)
  have e2 : getcol (hookStage bm (thumbStage bm df)) "Three-second video views"
      = getcol df "Three-second video views" :=
    getcol_prehold_raw bm df (by decide) (by decide) (by decide) (by decide)
  constructor
  · rw [getcol_calc_to_hold bm df (by decide) (by decide) (by decide) (by decide)]
    unfold holdStage
    rw [a1, a2]
    simp only [Bool.and_self, if_true,
      getcol_setcol_ne (show ("Hold Rate (%)" : String) ≠ "Hold Score" from by decide),
      getcol_setcol_self, e1, e2]
  · rw [getcol_calc_to_hold bm df (by decide) (by decide) (by decide) (by decide)]
    unfold holdStage
    rw [a1, a2]
    simp only [Bool.and_self, if_true, getcol_setcol_self, e1, e2]

theorem calc_click_cols (bm : Benchmarks) (df : Frame)
    (hLC : hascol df "Link Clicks" = true)
    (hI : hascol df "Impressions" = true) :
    getcol (calculate_motion_scores bm df) "CTR (%)" =
      List.zipWith (fun lc imp => Val.num (roundTo 3 (lc.toQ / imp.toQ * 100)))
        (getcol df "Link Clicks") (getcol df "Impressions") ∧
    getcol (calculate_motion_scores bm df) "Click Score" =
      (List.zipWith (fun lc imp => Val.num (roundTo 3 (lc.toQ / imp.toQ * 100)))
        (getcol df "Link Clicks") (getcol df "Impressions")).map
        (fun v => Val.num (benchScore bm.ctr v.toQ)) := by
  have a1 : hascol (holdStage bm (hookStage bm (thumbStage bm df))) "Link Clicks" = true := by
    rw [hascol_holdStage_ne (by decide) (by decide),
      hascol_prehold_raw bm df (by decide) (by decide) (by decide) (by decide), hLC]
  have a2 : hascol (holdStage bm (hookStage bm (thumbStage bm df))) "Impressions" = true := by
    rw [hascol_holdStage_ne (by decide) (by decide),
      hascol_prehold_raw bm df (by decide) (by decide) (by decide) (by decide), hI]
  have e1 : getcol (holdStage bm (hookStage bm (thumbStage bm df))) "Link Clicks"
      = getcol df "Link Clicks" := by
    rw [getcol_holdStage_ne (by decide) (by decide),
      getcol_prehold_raw bm df (by decide) (by decide) (by decide) (by decide)]
  have e2 : getcol (holdStage bm (hookStage bm (thumbStage bm df))) "Impressions"
      = getcol df "Impressions" := by
    rw [getcol_holdStage_ne (by decide) (by decide),
      getcol_prehold_raw bm df (by decide) (by decide) (by decide) (by decide)]
  constructor
  · rw [getcol_calc_to_stage5 bm df (by decide) (by decide)]
    unfold stage5 clickStage
    rw [a1, a2]
    simp only [Bool.and_self, if_true,
      getcol_setcol_ne (show ("CTR (%)" : String) ≠ "Click Score" from by decide),
      getcol_setcol_self, e1, e2]
  · rw [getcol_calc_to_stage5 bm df (by decide) (by decide)]
    unfold stage5 clickStage
    rw [a1, a2]
    simp only [Bool.and_self, if_true, getcol_setcol_self, e1, e2]

theorem calc_hook_score_map (bm : Benchmarks) (df : Frame) :
    getcol (calculate_motion_scores bm df) "Hook Score" =
      (getcol (calculate_motion_scores bm df) "Hook Rate (%)").map
        (fun v => Val.num (benchScore bm.hook_rate v.toQ)) := by
  rw [getcol_calc_to_hook bm df (by decide) (by decide) (by decide) (by decide)
    (by decide) (by decide),
    getcol_calc_to_hook bm df (by decide) (by decide) (by decide) (by decide)
    (by decide) (by decide)]
  unfold hookStage
  simp only [getcol_setcol_self,
    getcol_setcol_ne (show ("Hook Rate (%)" : String) ≠ "Hook Score" from by decide)]

theorem calc_hook_present (bm : Benchmarks) (df : Frame) :
    hascol (calculate_motion_scores bm df) "Hook Rate (%)" = true ∧
    hascol (calculate_motion_scores bm df) "Hook Score" = true := by
  constructor
  · rw [hascol_calc_to_hook bm df (by decide) (by decide) (by decide) (by decide)
      (by decide) (by decide)]
    unfold hookStage
    simp only [hascol_setcol_self,
      hascol_setcol_ne (show ("Hook Rate (%)" : String) ≠ "Hook Score" from by decide)]
  · rw [hascol_calc_to_hook bm df (by decide) (by decide) (by decide) (by decide)
      (by decide) (by decide)]
    unfold hookStage
    simp only [hascol_setcol_self]

theorem hascol_stage5_hookscore (bm : Benchmarks) (df : Frame) :
    hascol (stage5 bm df) "Hook Score" = true := by
  unfold stage5
  rw [hascol_clickStage_ne (by decide) (by decide),
    hascol_holdStage_ne (by decide) (by decide)]
  unfold hookStage
  simp only [hascol_setcol_self]

theorem overall_filter_isEmpty_false (bm : Benchmarks) (df : Frame) :
    (scoreColumns.filter (fun c => hascol (stage5 bm df) c)).isEmpty = false := by
  have hm : "Hook Score" ∈ scoreColumns.filter (fun c => hascol (stage5 bm df) c) :=
    List.mem_filter.mpr ⟨by decide, hascol_stage5_hookscore bm df⟩
  cases h : (scoreColumns.filter (fun c => hascol (stage5 bm df) c)).isEmpty
  · rfl
  · rw [List.isEmpty_iff] at h
    rw [h] at hm
    simp at hm

theorem calc_overall_col (bm : Benchmarks) (df : Frame) :
    getcol (calculate_motion_scores bm df) "Overall Score" =
      rowMeans (stage5 bm df)
        (scoreColumns.filter (fun c => hascol (stage5 bm df) c)) := by
  unfold calculate_motion_scores
  rw [getcol_tierStage_ne (by decide)]
  unfold overallStage
  dsimp only
  rw [overall_filter_isEmpty_false]
  simp only [Bool.false_eq_true, if_false, getcol_setcol_self]

theorem calc_overall_present (bm : Benchmarks) (df : Frame) :
    hascol (calculate_motion_scores bm df) "Overall Score" = true := by
  unfold calculate_motion_scores
  rw [hascol_tierStage_ne (by decide)]
  unfold overallStage
  dsimp only
  rw [overall_filter_isEmpty_false]
  simp only [Bool.false_eq_true, if_false, hascol_setcol_self]

theorem calc_tier_col (bm : Benchmarks) (df : Frame) :
    getcol (calculate_motion_scores bm df) "Performance Tier" =
      (getcol (calculate_motion_scores bm df) "Overall Score").map
        (fun v => Val.str (get_tier v.toQ)) := by
  have hOS : hascol (overallStage (stage5 bm df)) "Overall Score" = true := by
    unfold overallStage
    dsimp only
    rw [overall_filter_isEmpty_false]
    simp only [Bool.false_eq_true, if_false, hascol_setcol_self]
  unfold calculate_motion_scores tierStage
  rw [hOS]
  simp only [if_true, getcol_setcol_self,
    getcol_setcol_ne (show ("Overall Score" : String) ≠ "Performance Tier" from by decide)]

theorem calc_scorecols_to_stage5 (bm : Benchmarks) (df : Frame) {c : String}
    (hc : c ∈ scoreColumns) :
    getcol (calculate_motion_scores bm df) c = getcol (stage5 bm df) c ∧
    hascol (calculate_motion_scores bm df) c = hascol (stage5 bm df) c := by
  have h1 : c ≠ "Overall Score" := fun e => absurd (e ▸ hc) (by decide)
  have h2 : c ≠ "Performance Tier" := fun e => absurd (e ▸ hc) (by decide)
  exact ⟨getcol_calc_to_stage5 bm df h1 h2, hascol_calc_to_stage5 bm df h1 h2⟩

/-! ### Skipped stages and whole-pipeline preservation -/

theorem thumbStage_skip (bm : Benchmarks) (df : Frame)
    (hI : hascol df "Impressions" = false) : thumbStage bm df = df := by
  unfold thumbStage
  rw [hI]
  simp

theorem holdStage_skip_tp (bm : Benchmarks) (df : Frame)
    (h : hascol df "ThruPlay Actions" = false) : holdStage bm df = df := by
  unfold holdStage
  rw [h]
  simp

theorem holdStage_skip_tsv (bm : Benchmarks) (df : Frame)
    (h : hascol df "Three-second video views" = false) : holdStage bm df = df := by
  unfold holdStage
  rw [h]
  simp

theorem clickStage_skip_lc (bm : Benchmarks) (df : Frame)
    (h : hascol df "Link Clicks" = false) : clickStage bm df = df := by
  unfold clickStage
  rw [h]
  simp

theorem thumbStage_skip_tsv (bm : Benchmarks) (df : Frame)
    (h : hascol df "Three-second video views" = false) : thumbStage bm df = df := by
  unfold thumbStage
  rw [h]
  simp

theorem clickStage_skip_imp (bm : Benchmarks) (df : Frame)
    (h : hascol df "Impressions" = false) : clickStage bm df = df := by
  unfold clickStage
  rw [h]
  simp

theorem calc_tier_present (bm : Benchmarks) (df : Frame) :
    hascol (calculate_motion_scores bm df) "Performance Tier" = true := by
  have hOS : hascol (overallStage (stage5 bm df)) "Overall Score" = true := by
    unfold overallStage
    dsimp only
    rw [overall_filter_isEmpty_false]
    simp only [Bool.false_eq_true, if_false, hascol_setcol_self]
  unfold calculate_motion_scores tierStage
  rw [hOS]
  simp only [if_true, hascol_setcol_self]

theorem hookStage_zero_rate (bm : Benchmarks) (df : Frame)
    (h : hascol df "Thumb-stop Rate (%)" = false) :
    getcol (hookStage bm df) "Hook Rate (%)"
      = List.replicate (nRows df) (Val.num 0) := by
  unfold hookStage
  rw [h]
  simp only [Bool.false_eq_true, if_false,
    getcol_setcol_ne (show ("Hook Rate (%)" : String) ≠ "Hook Score" from by decide),
    getcol_setcol_self]

theorem getcol_calc_not_derived (bm : Benchmarks) (df : Frame) {c : String}
    (h : c ∉ derivedNames) :
    getcol (calculate_motion_scores bm df) c = getcol df c ∧
    hascol (calculate_motion_scores bm df) c = hascol df c := by
  have n1 : c ≠ "Thumb-stop Rate (%)" := by rintro rfl; exact h (by decide)
  have n2 : c ≠ "Thumb-stop Score" := by rintro rfl; exact h (by decide)
  have n3 : c ≠ "Hook Rate (%)" := by rintro rfl; exact h (by decide)
  have n4 : c ≠ "Hook Score" := by rintro rfl; exact h (by decide)
  have n5 : c ≠ "Hold Rate (%)" := by rintro rfl; exact h (by decide)
  have n6 : c ≠ "Hold Score" := by rintro rfl; exact h (by decide)
  have n7 : c ≠ "CTR (%)" := by rintro rfl; exact h (by decide)
  have n8 : c ≠ "Click Score" := by rintro rfl; exact h (by decide)
  have n9 : c ≠ "Overall Score" := by rintro rfl; exact h (by decide)
  have n10 : c ≠ "Performance Tier" := by rintro rfl; exact h (by decide)
  constructor
  · rw [getcol_calc_to_hold bm df n7 n8 n9 n10, getcol_holdStage_ne n5 n6,
      getcol_prehold_raw bm df n1 n2 n3 n4]
  · rw [hascol_calc_to_hold bm df n7 n8 n9 n10, hascol_holdStage_ne n5 n6,
      hascol_prehold_raw bm df n1 n2 n3 n4]

/-! ### Append-only behaviour on frames free of derived columns -/

theorem hascol_names_false {e : Frame} {L : List String}
    (he : ∀ p ∈ e, p.1 ∈ L) {c : String} (hc : c ∉ L) :
    hascol e c = false := by
  induction e with
  | nil => rfl
  | cons p t ih =>
    have hp : p.1 ∈ L := he p (List.mem_cons_self p t)
    have hne : p.1 ≠ c := fun hh => hc (hh ▸ hp)
    rw [hascol_cons, beq_eq_false_iff_ne.mpr hne,
      ih (fun q hq => he q (List.mem_cons_of_mem p hq))]
    rfl

theorem setcol_extend {df e : Frame} {L : List String} {c : String}
    (hdf : hascol df c = false) (he : ∀ p ∈ e, p.1 ∈ L) (hcL : c ∉ L)
    (v : List Val) : setcol (df ++ e) c v = df ++ (e ++ [(c, v)]) :=
  setcol_append_fresh hdf (hascol_names_false he hcL) v

theorem setcol1_extend {df e : Frame} {L : List String} {c : String}
    (hd : hascol df c = false) (he : ∀ p ∈ e, p.1 ∈ L) (h1 : c ∉ L)
    (v : List Val) :
    ∃ e', setcol (df ++ e) c v = df ++ e' ∧ ∀ p ∈ e', p.1 ∈ L ++ [c] := by
  refine ⟨e ++ [(c, v)], setcol_extend hd he h1 v, ?_⟩
  intro p hp
  rcases List.mem_append.mp hp with h | h
  · exact List.mem_append_left _ (he p h)
  · simp at h
    simp [h]

theorem setcol2_extend {df e : Frame} {L : List String} {c1 c2 : String}
    (hd1 : hascol df c1 = false) (hd2 : hascol df c2 = false) (hne : c2 ≠ c1)
    (he : ∀ p ∈ e, p.1 ∈ L) (h1 : c1 ∉ L) (h2 : c2 ∉ L) (v w : List Val) :
    ∃ e', setcol (setcol (df ++ e) c1 v) c2 w = df ++ e' ∧
      ∀ p ∈ e', p.1 ∈ L ++ [c1, c2] := by
  have he' : ∀ p ∈ e ++ [(c1, v)], p.1 ∈ L ++ [c1] := by
    intro p hp
    rcases List.mem_append.mp hp with h | h
    · exact List.mem_append_left _ (he p h)
    · simp at h
      simp [h]
  have h2' : c2 ∉ L ++ [c1] := by
    intro hmem
    rcases List.mem_append.mp hmem with h | h
    · exact h2 h
    · simp at h
      exact hne h
  rw [setcol_extend hd1 he h1 v]
  obtain ⟨e', hE, hN⟩ := setcol1_extend hd2 he' h2' w
  refine ⟨e', hE, ?_⟩
  intro p hp
  have := hN p hp
  rcases List.mem_append.mp this with h | h
  · rcases List.mem_append.mp h with h' | h'
    · exact List.mem_append_left _ h'
    · simp at h'
      simp [h']
  · simp at h
    simp [h]

theorem thumbStage_extend (bm : Benchmarks) {df e : Frame} {L : List String}
    (hd1 : hascol df "Thumb-stop Rate (%)" = false)
    (hd2 : hascol df "Thumb-stop Score" = false)
    (he : ∀ p ∈ e, p.1 ∈ L)
    (h1 : "Thumb-stop Rate (%)" ∉ L) (h2 : "Thumb-stop Score" ∉ L) :
    ∃ e', thumbStage bm (df ++ e) = df ++ e' ∧
      ∀ p ∈ e', p.1 ∈ L ++ ["Thumb-stop Rate (%)", "Thumb-stop Score"] := by
  unfold thumbStage
  split
  · exact setcol2_extend hd1 hd2 (by decide) he h1 h2 _ _
  · exact ⟨e, rfl, fun p hp => List.mem_append_left _ (he p hp)⟩

theorem hookStage_extend (bm : Benchmarks) {df e : Frame} {L : List String}
    (hd1 : hascol df "Hook Rate (%)" = false)
    (hd2 : hascol df "Hook Score" = false)
    (he : ∀ p ∈ e, p.1 ∈ L)
    (h1 : "Hook Rate (%)" ∉ L) (h2 : "Hook Score" ∉ L) :
    ∃ e', hookStage bm (df ++ e) = df ++ e' ∧
      ∀ p ∈ e', p.1 ∈ L ++ ["Hook Rate (%)", "Hook Score"] := by
  unfold hookStage
  exact setcol2_extend hd1 hd2 (by decide) he h1 h2 _ _

theorem holdStage_extend (bm : Benchmarks) {df e : Frame} {L : List String}
    (hd1 : hascol df "Hold Rate (%)" = false)
    (hd2 : hascol df "Hold Score" = false)
    (he : ∀ p ∈ e, p.1 ∈ L)
    (h1 : "Hold Rate (%)" ∉ L) (h2 : "Hold Score" ∉ L) :
    ∃ e', holdStage bm (df ++ e) = df ++ e' ∧
      ∀ p ∈ e', p.1 ∈ L ++ ["Hold Rate (%)", "Hold Score"] := by
  unfold holdStage
  split
  · exact setcol2_extend hd1 hd2 (by decide) he h1 h2 _ _
  · exact ⟨e, rfl, fun p hp => List.mem_append_left _ (he p hp)⟩

theorem clickStage_extend (bm : Benchmarks) {df e : Frame} {L : List String}
    (hd1 : hascol df "CTR (%)" = false)
    (hd2 : hascol df "Click Score" = false)
    (he : ∀ p ∈ e, p.1 ∈ L)
    (h1 : "CTR (%)" ∉ L) (h2 : "Click Score" ∉ L) :
    ∃ e', clickStage bm (df ++ e) = df ++ e' ∧
      ∀ p ∈ e', p.1 ∈ L ++ ["CTR (%)", "Click Score"] := by
  unfold clickStage
  split
  · exact setcol2_extend hd1 hd2 (by decide) he h1 h2 _ _
  · exact ⟨e, rfl, fun p hp => List.mem_append_left _ (he p hp)⟩

theorem overallStage_extend {df e : Frame} {L : List String}
    (hd1 : hascol df "Overall Score" = false)
    (he : ∀ p ∈ e, p.1 ∈ L)
    (h1 : "Overall Score" ∉ L) :
    ∃ e', overallStage (df ++ e) = df ++ e' ∧
      ∀ p ∈ e', p.1 ∈ L ++ ["Overall Score"] := by
  unfold overallStage
  dsimp only
  split
  · exact ⟨e, rfl, fun p hp => List.mem_append_left _ (he p hp)⟩
  · exact setcol1_extend hd1 he h1 _

theorem tierStage_extend {df e : Frame} {L : List String}
    (hd1 : hascol df "Performance Tier" = false)
    (he : ∀ p ∈ e, p.1 ∈ L)
    (h1 : "Performance Tier" ∉ L) :
    ∃ e', tierStage (df ++ e) = df ++ e' ∧
      ∀ p ∈ e', p.1 ∈ L ++ ["Performance Tier"] := by
  unfold tierStage
  split
  · exact setcol1_extend hd1 he h1 _
  · exact ⟨e, rfl, fun p hp => List.mem_append_left _ (he p hp)⟩

theorem calc_append_only (bm : Benchmarks) (df : Frame)
    (h : ∀ d ∈ derivedNames, hascol df d = false) :
    ∃ e : Frame, calculate_motion_scores bm df = df ++ e := by
  have hd1 := h "Thumb-stop Rate (%)" (by decide)
  have hd2 := h "Thumb-stop Score" (by decide)
  have hd3 := h "Hook Rate (%)" (by decide)
  have hd4 := h "Hook Score" (by decide)
  have hd5 := h "Hold Rate (%)" (by decide)
  have hd6 := h "Hold Score" (by decide)
  have hd7 := h "CTR (%)" (by decide)
  have hd8 := h "Click Score" (by decide)
  have hd9 := h "Overall Score" (by decide)
  have hd10 := h "Performance Tier" (by decide)
  have h0 : ∀ p ∈ ([] : Frame), p.1 ∈ ([] : List String) := by simp
  obtain ⟨e1, hE1, hN1⟩ :=
    thumbStage_extend (L := []) bm hd1 hd2 h0 (by decide) (by decide)
  obtain ⟨e2, hE2, hN2⟩ := hookStage_extend bm hd3 hd4 hN1 (by decide) (by decide)
  obtain ⟨e3, hE3, hN3⟩ := holdStage_extend bm hd5 hd6 hN2 (by decide) (by decide)
  obtain ⟨e4, hE4, hN4⟩ := clickStage_extend bm hd7 hd8 hN3 (by decide) (by decide)
  obtain ⟨e5, hE5, hN5⟩ := overallStage_extend hd9 hN4 (by decide)
  obtain ⟨e6, hE6, hN6⟩ := tierStage_extend hd10 hN5 (by decide)
  refine ⟨e6, ?_⟩
  have hstart : calculate_motion_scores bm df
      = tierStage (overallStage (clickStage bm (holdStage bm (hookStage bm (thumbStage bm (df ++ [])))))) := by
    rw [List.append_nil]
    rfl
  rw [hstart, hE1, hE2, hE3, hE4, hE5, hE6]

/-! ### Remaining helpers -/

theorem sum_div_length_bounds {l : List ℚ} (hne : l ≠ [])
    (hb : ∀ s ∈ l, 0 ≤ s ∧ s ≤ 100) :
    0 ≤ l.sum / l.length ∧ l.sum / l.length ≤ 100 := by
  have hlen : 0 < (l.length : ℚ) := by
    have : 0 < l.length := List.length_pos.mpr hne
    exact_mod_cast this
  constructor
  · exact div_nonneg (List.sum_nonneg fun x hx => (hb x hx).1) (le_of_lt hlen)
  · rw [div_le_iff₀ hlen]
    have hsum : l.sum ≤ l.length • (100 : ℚ) :=
      List.sum_le_card_nsmul l 100 fun x hx => (hb x hx).2
    rw [nsmul_eq_mul] at hsum
    linarith

theorem hascol_thumbStage_taken (bm : Benchmarks) (df : Frame)
    (h3 : hascol df "Three-second video views" = true)
    (hI : hascol df "Impressions" = true) :
    hascol (thumbStage bm df) "Thumb-stop Rate (%)" = true := by
  unfold thumbStage
  rw [h3, hI]
  simp only [Bool.and_self, if_true,
    hascol_setcol_ne (show ("Thumb-stop Rate (%)" : String) ≠ "Thumb-stop Score" from by decide),
    hascol_setcol_self]

theorem calc_hook_eq_thumb (bm : Benchmarks) (df : Frame)
    (h3 : hascol df "Three-second video views" = true)
    (hI : hascol df "Impressions" = true) :
    getcol (calculate_motion_scores bm df) "Hook Rate (%)"
      = getcol (calculate_motion_scores bm df) "Thumb-stop Rate (%)" := by
  rw [getcol_calc_to_hook bm df (by decide) (by decide) (by decide) (by decide)
    (by decide) (by decide),
    getcol_calc_to_hook bm df (by decide) (by decide) (by decide) (by decide)
    (by decide) (by decide)]
  have hTSR := hascol_thumbStage_taken bm df h3 hI
  unfold hookStage
  rw [hTSR]
  simp only [if_true,
    getcol_setcol_ne (show ("Hook Rate (%)" : String) ≠ "Hook Score" from by decide),
    getcol_setcol_self,
    getcol_setcol_ne (show ("Thumb-stop Rate (%)" : String) ≠ "Hook Score" from by decide),
    getcol_setcol_ne (show ("Thumb-stop Rate (%)" : String) ≠ "Hook Rate (%)" from by decide)]

/-! ### The claims -/

/-- C1: for every record with a present rate `x` and configured benchmark `b`,
the benchmark-ratio score equals `min(100, (x / b) * 50)`, and this formula is
applied uniformly to the Thumb-stop, Hook, Hold and Click scores; with
benchmark 8, a rate of 8 scores exactly 50, any rate ≥ 16 scores exactly 100,
and a rate of 4 scores exactly 25. -/
theorem C1_benchmark_score_uniform (bm : Benchmarks) (df : Frame)
    (h3 : hascol df "Three-second video views" = true)
    (hI : hascol df "Impressions" = true)
    (hTP : hascol df "ThruPlay Actions" = true)
    (hLC : hascol df "Link Clicks" = true) :
    (getcol (calculate_motion_scores bm df) "Thumb-stop Score" =
      (getcol (calculate_motion_scores bm df) "Thumb-stop Rate (%)").map
        (fun v => Val.num (min 100 (v.toQ / bm.thumb_stop_rate * 50)))) ∧
    (getcol (calculate_motion_scores bm df) "Hook Score" =
      (getcol (calculate_motion_scores bm df) "Hook Rate (%)").map
        (fun v => Val.num (min 100 (v.toQ / bm.hook_rate * 50)))) ∧
    (getcol (calculate_motion_scores bm df) "Hold Score" =
      (getcol (calculate_motion_scores bm df) "Hold Rate (%)").map
        (fun v => Val.num (min 100 (v.toQ / bm.hold_rate * 50)))) ∧
    (getcol (calculate_motion_scores bm df) "Click Score" =
      (getcol (calculate_motion_scores bm df) "CTR (%)").map
        (fun v => Val.num (min 100 (v.toQ / bm.ctr * 50)))) ∧
    benchScore 8 8 = 50 ∧ (∀ x : ℚ, 16 ≤ x → benchScore 8 x = 100) ∧
    benchScore 8 4 = 25 := by
  obtain ⟨hTR, hTS⟩ := calc_thumb_cols bm df h3 hI
  obtain ⟨hHR, hHS⟩ := calc_hold_cols bm df hTP h3
  obtain ⟨hCR, hCS⟩ := calc_click_cols bm df hLC hI
  refine ⟨?_, ?_, ?_, ?_, by decide, ?_, by decide⟩
  · rw [hTS, hTR]
    simp [benchScore, qmin_eq_min]
  · rw [calc_hook_score_map]
    simp [benchScore, qmin_eq_min]
  · rw [hHS, hHR]
    simp [benchScore, qmin_eq_min]
  · rw [hCS, hCR]
    simp [benchScore, qmin_eq_min]
  · intro x hx
    unfold benchScore qmin
    rw [if_pos (by linarith)]

/-- Witness for C1 at the full-input one-row fixture and at the rate 20. -/
theorem C1_benchmark_score_uniform_witness :
    hascol dfAll "Three-second video views" = true ∧
    hascol dfAll "ThruPlay Actions" = true ∧
    (getcol (calculate_motion_scores defaultBenchmarks dfAll) "Hold Score" =
      (getcol (calculate_motion_scores defaultBenchmarks dfAll) "Hold Rate (%)").map
        (fun v => Val.num (min 100 (v.toQ / defaultBenchmarks.hold_rate * 50)))) ∧
    (16 : ℚ) ≤ 20 ∧ benchScore 8 20 = 100 :=
  ⟨by decide, by decide,
   (C1_benchmark_score_uniform defaultBenchmarks dfAll (by decide) (by decide)
     (by decide) (by decide)).2.2.1,
   by norm_num,
   (C1_benchmark_score_uniform defaultBenchmarks dfAll (by decide) (by decide)
     (by decide) (by decide)).2.2.2.2.2.1 20 (by norm_num)⟩

/-- C2: every benchmark-ratio score lies in [0, 100] for any nonnegative rate
and positive benchmark, the rounded mean of any nonempty collection of such
scores (the Overall Score) lies in [0, 100], and rounding keeps a nonnegative
rate nonnegative. -/
theorem C2_scores_in_unit_range :
    (∀ b x : ℚ, 0 < b → 0 ≤ x → 0 ≤ benchScore b x ∧ benchScore b x ≤ 100) ∧
    (∀ l : List ℚ, l ≠ [] → (∀ s ∈ l, 0 ≤ s ∧ s ≤ 100) →
      0 ≤ roundHE (l.sum / l.length) ∧ roundHE (l.sum / l.length) ≤ 100) ∧
    (∀ (nd : ℕ) (q : ℚ), 0 ≤ q → 0 ≤ roundTo nd q) := by
  refine ⟨?_, ?_, ?_⟩
  · intro b x hb hx
    rw [benchScore, qmin_eq_min]
    have hdiv : 0 ≤ x / b := div_nonneg hx (le_of_lt hb)
    constructor
    · exact le_min (by norm_num) (by nlinarith)
    · exact min_le_left _ _
  · intro l hne hb
    obtain ⟨h1, h2⟩ := sum_div_length_bounds hne hb
    refine ⟨roundHE_nonneg h1, roundHE_le ?_⟩
    exact_mod_cast h2
  · intro nd q h
    exact roundTo_nonneg nd h

/-- Witness for C2 at benchmark 8, rate 12, and the score list [50, 100]. -/
theorem C2_scores_in_unit_range_witness :
    0 < (8 : ℚ) ∧ 0 ≤ (12 : ℚ) ∧
    (0 ≤ benchScore 8 12 ∧ benchScore 8 12 ≤ 100) ∧
    ([(50 : ℚ), 100] ≠ []) ∧
    (0 ≤ roundHE ([(50 : ℚ), 100].sum / [(50 : ℚ), 100].length) ∧
      roundHE ([(50 : ℚ), 100].sum / [(50 : ℚ), 100].length) ≤ 100) ∧
    0 ≤ roundTo 2 (5 : ℚ) :=
  ⟨by norm_num, by norm_num,
   C2_scores_in_unit_range.1 8 12 (by norm_num) (by norm_num),
   by decide,
   C2_scores_in_unit_range.2.1 [50, 100] (by decide) (by decide),
   C2_scores_in_unit_range.2.2 2 5 (by norm_num)⟩

/-- C3: the Overall Score column is the row-wise arithmetic mean of exactly
the individual score columns that are present, rounded to an integer; the
Performance Tier maps the overall score through the thresholds
Excellent (≥ 80), Good (60–79), Average (40–59), Poor (< 40); and the
five-record dataset whose overall scores come out as 90, 75, 55, 35, 20 is
tiered Excellent, Good, Average, Poor, Poor. -/
theorem C3_overall_mean_and_tiers (bm : Benchmarks) (df : Frame) :
    (getcol (calculate_motion_scores bm df) "Overall Score" =
      rowMeans (stage5 bm df)
        (scoreColumns.filter (fun c => hascol (stage5 bm df) c))) ∧
    (∀ c ∈ scoreColumns,
      getcol (calculate_motion_scores bm df) c = getcol (stage5 bm df) c ∧
      hascol (calculate_motion_scores bm df) c = hascol (stage5 bm df) c) ∧
    (getcol (calculate_motion_scores bm df) "Performance Tier" =
      (getcol (calculate_motion_scores bm df) "Overall Score").map
        (fun v => Val.str (get_tier v.toQ))) ∧
    (∀ s : ℚ,
      (80 ≤ s → get_tier s = "🏆 Excellent") ∧
      (60 ≤ s ∧ s < 80 → get_tier s = "✅ Good") ∧
      (40 ≤ s ∧ s < 60 → get_tier s = "⚠️ Average") ∧
      (s < 40 → get_tier s = "🔴 Poor")) ∧
    (getcol (calculate_motion_scores defaultBenchmarks dfTiers) "Overall Score"
        = [Val.num 90, Val.num 75, Val.num 55, Val.num 35, Val.num 20] ∧
      getcol (calculate_motion_scores defaultBenchmarks dfTiers) "Performance Tier"
        = [Val.str "🏆 Excellent", Val.str "✅ Good", Val.str "⚠️ Average",
           Val.str "🔴 Poor", Val.str "🔴 Poor"]) := by
  refine ⟨calc_overall_col bm df, fun c hc => calc_scorecols_to_stage5 bm df hc,
    calc_tier_col bm df, ?_, by decide, by decide⟩
  intro s
  refine ⟨?_, ?_, ?_, ?_⟩
  · intro h
    unfold get_tier
    rw [if_pos h]
  · rintro ⟨h1, h2⟩
    unfold get_tier
    rw [if_neg (by linarith), if_pos h1]
  · rintro ⟨h1, h2⟩
    unfold get_tier
    rw [if_neg (by linarith), if_neg (by linarith), if_pos h1]
  · intro h
    unfold get_tier
    rw [if_neg (by linarith), if_neg (by linarith), if_neg (by linarith)]

/-- Witness for C3: the tier thresholds applied at 90 and 75. -/
theorem C3_overall_mean_and_tiers_witness :
    (80 ≤ (90 : ℚ)) ∧ get_tier 90 = "🏆 Excellent" ∧
    (60 ≤ (75 : ℚ) ∧ (75 : ℚ) < 80) ∧ get_tier 75 = "✅ Good" :=
  ⟨by norm_num,
   ((C3_overall_mean_and_tiers defaultBenchmarks dfTiers).2.2.2.1 90).1 (by norm_num),
   ⟨by norm_num, by norm_num⟩,
   ((C3_overall_mean_and_tiers defaultBenchmarks dfTiers).2.2.2.1 75).2.1
     ⟨by norm_num, by norm_num⟩⟩

/-- C4: whenever both ThruPlay Actions and Three-second video views are
present, the hold rate of a row is `thruplay / three_second_views * 100`
rounded to 2 decimals when the denominator is positive and 0 otherwise; the
two scenario rows (800, 0) and (0, 0) both give hold rate 0 with no
division-by-zero. -/
theorem C4_hold_rate_guarded (bm : Benchmarks) (df : Frame)
    (hTP : hascol df "ThruPlay Actions" = true)
    (h3 : hascol df "Three-second video views" = true) :
    (∀ (i : ℕ) (tp tsv : ℚ),
      (getcol df "ThruPlay Actions")[i]? = some (Val.num tp) →
      (getcol df "Three-second video views")[i]? = some (Val.num tsv) →
      (getcol (calculate_motion_scores bm df) "Hold Rate (%)")[i]? =
        some (Val.num (if 0 < tsv then roundTo 2 (tp / tsv * 100) else 0))) ∧
    getcol (calculate_motion_scores defaultBenchmarks dfHoldRows) "Hold Rate (%)"
      = [Val.num 0, Val.num 0] := by
  refine ⟨?_, by decide⟩
  intro i tp tsv h1 h2
  rw [(calc_hold_cols bm df hTP h3).1]
  exact zipWith_getElem? _ _ _ i _ _ h1 h2

/-- Witness for C4 at the scenario fixture, row 0. -/
theorem C4_hold_rate_guarded_witness :
    hascol dfHoldRows "ThruPlay Actions" = true ∧
    hascol dfHoldRows "Three-second video views" = true ∧
    (getcol (calculate_motion_scores defaultBenchmarks dfHoldRows) "Hold Rate (%)")[0]? =
      some (Val.num (if (0 : ℚ) < 800 then roundTo 2 (0 / 800 * 100) else 0)) :=
  ⟨by decide, by decide,
   (C4_hold_rate_guarded defaultBenchmarks dfHoldRows (by decide) (by decide)).1
     0 0 800 (by decide) (by decide)⟩

/-- C5 counterexample: on a dataset with no Impressions column the engine
still adds a `Hook Rate (%)` column, filled with the scalar 0 — the column is
not omitted. -/
theorem C5_counterexample_hook_rate_always_added :
    hascol dfNoImpressions "Impressions" = false ∧
    hascol (calculate_motion_scores defaultBenchmarks dfNoImpressions)
      "Hook Rate (%)" = true ∧
    getcol (calculate_motion_scores defaultBenchmarks dfNoImpressions)
      "Hook Rate (%)" = [Val.num 0] := by
  refine ⟨by decide, by decide, by decide⟩

/-- C5 amended: the omission invariant holds for the Thumb-stop, Hold and CTR
rate columns — whenever any of the rate's required raw input columns is
absent (and no column of the derived name pre-exists in the input), the
derived rate column is absent from the output — but `Hook Rate (%)`,
`Hook Score`, `Overall Score` and `Performance Tier` are always added; when
the thumb-stop rate is unavailable the hook rate column is filled with
zeros. -/
theorem C5_omission_except_hook (bm : Benchmarks) (df : Frame) :
    hascol (calculate_motion_scores bm df) "Hook Rate (%)" = true ∧
    hascol (calculate_motion_scores bm df) "Hook Score" = true ∧
    hascol (calculate_motion_scores bm df) "Overall Score" = true ∧
    hascol (calculate_motion_scores bm df) "Performance Tier" = true ∧
    ((hascol df "Three-second video views" = false ∨ hascol df "Impressions" = false) →
      hascol df "Thumb-stop Rate (%)" = false →
      hascol (calculate_motion_scores bm df) "Thumb-stop Rate (%)" = false ∧
      getcol (calculate_motion_scores bm df) "Hook Rate (%)"
        = List.replicate (nRows df) (Val.num 0)) ∧
    ((hascol df "ThruPlay Actions" = false ∨
        hascol df "Three-second video views" = false) →
      hascol df "Hold Rate (%)" = false →
      hascol (calculate_motion_scores bm df) "Hold Rate (%)" = false) ∧
    ((hascol df "Link Clicks" = false ∨ hascol df "Impressions" = false) →
      hascol df "CTR (%)" = false →
      hascol (calculate_motion_scores bm df) "CTR (%)" = false) := by
  refine ⟨(calc_hook_present bm df).1, (calc_hook_present bm df).2,
    calc_overall_present bm df, calc_tier_present bm df, ?_, ?_, ?_⟩
  · intro hd hTSR
    have hskip : thumbStage bm df = df := by
      rcases hd with h | h
      · exact thumbStage_skip_tsv bm df h
      · exact thumbStage_skip bm df h
    constructor
    · rw [hascol_calc_to_hook bm df (by decide) (by decide) (by decide) (by decide)
        (by decide) (by decide), hskip,
        hascol_hookStage_ne (by decide) (by decide)]
      exact hTSR
    · rw [getcol_calc_to_hook bm df (by decide) (by decide) (by decide) (by decide)
        (by decide) (by decide), hskip]
      exact hookStage_zero_rate bm df hTSR
  · intro hd hHoldR
    have hskip : holdStage bm (hookStage bm (thumbStage bm df))
        = hookStage bm (thumbStage bm df) := by
      rcases hd with h | h
      · refine holdStage_skip_tp bm _ ?_
        rw [hascol_prehold_raw bm df (by decide) (by decide) (by decide) (by decide)]
        exact h
      · refine holdStage_skip_tsv bm _ ?_
        rw [hascol_prehold_raw bm df (by decide) (by decide) (by decide) (by decide)]
        exact h
    rw [hascol_calc_to_hold bm df (by decide) (by decide) (by decide) (by decide),
      hskip,
      hascol_prehold_raw bm df (by decide) (by decide) (by decide) (by decide)]
    exact hHoldR
  · intro hd hCTR
    have hskip : clickStage bm (holdStage bm (hookStage bm (thumbStage bm df)))
        = holdStage bm (hookStage bm (thumbStage bm df)) := by
      rcases hd with h | h
      · refine clickStage_skip_lc bm _ ?_
        rw [hascol_holdStage_ne (by decide) (by decide),
          hascol_prehold_raw bm df (by decide) (by decide) (by decide) (by decide)]
        exact h
      · refine clickStage_skip_imp bm _ ?_
        rw [hascol_holdStage_ne (by decide) (by decide),
          hascol_prehold_raw bm df (by decide) (by decide) (by decide) (by decide)]
        exact h
    rw [hascol_calc_to_stage5 bm df (by decide) (by decide)]
    unfold stage5
    rw [hskip, hascol_holdStage_ne (by decide) (by decide),
      hascol_prehold_raw bm df (by decide) (by decide) (by decide) (by decide)]
    exact hCTR

/-- Witness for C5 (amended) at the fixture with no Impressions column,
exercising all three omission conjuncts. -/
theorem C5_omission_except_hook_witness :
    hascol dfNoImpressions "Impressions" = false ∧
    hascol dfNoImpressions "Thumb-stop Rate (%)" = false ∧
    hascol (calculate_motion_scores defaultBenchmarks dfNoImpressions)
      "Thumb-stop Rate (%)" = false ∧
    getcol (calculate_motion_scores defaultBenchmarks dfNoImpressions)
      "Hook Rate (%)" = List.replicate (nRows dfNoImpressions) (Val.num 0) ∧
    hascol (calculate_motion_scores defaultBenchmarks dfNoImpressions)
      "Hold Rate (%)" = false ∧
    hascol (calculate_motion_scores defaultBenchmarks dfNoImpressions)
      "CTR (%)" = false :=
  ⟨by decide, by decide,
   ((C5_omission_except_hook defaultBenchmarks dfNoImpressions).2.2.2.2.1
     (Or.inr (by decide)) (by decide)).1,
   ((C5_omission_except_hook defaultBenchmarks dfNoImpressions).2.2.2.2.1
     (Or.inr (by decide)) (by decide)).2,
   (C5_omission_except_hook defaultBenchmarks dfNoImpressions).2.2.2.2.2.1
     (Or.inl (by decide)) (by decide),
   (C5_omission_except_hook defaultBenchmarks dfNoImpressions).2.2.2.2.2.2
     (Or.inr (by decide)) (by decide)⟩

/-- C6 counterexample: on a dataset with an Overall Score column and zero
rows, the executive summary returns a record whose average is NaN (modelled
`none`) instead of failing, and the top-performers KPI card hits an unguarded
division by the zero row count (modelled `none`, a ZeroDivisionError); no
EmptyDataset condition exists anywhere in the code. -/
theorem C6_counterexample_no_empty_dataset_error :
    nRows dfEmptyRows = 0 ∧
    execSummary dfEmptyRows = some ⟨0, none, 0, 0, 0⟩ ∧
    topPerformersPct dfEmptyRows = none := by
  refine ⟨rfl, by decide, by decide⟩

/-- C6 amended: on any zero-row dataset the executive summary block returns a
summary whose mean is the NaN of an empty mean rather than raising a typed
error, and the top-performers KPI raises an untyped division-by-zero. -/
theorem C6_empty_dataset_behaviour (df : Frame)
    (hz : getcol df "Overall Score" = []) (hn : nRows df = 0) :
    (hascol df "Overall Score" = true →
      execSummary df = some ⟨0, none, 0, 0, 0⟩) ∧
    topPerformersPct df = none := by
  constructor
  · intro h
    unfold execSummary numsOf seriesMean
    rw [h, hz, hn]
    simp
  · unfold topPerformersPct
    dsimp only
    rw [hn]
    simp

/-- Witness for C6 (amended) at the zero-row fixture. -/
theorem C6_empty_dataset_behaviour_witness :
    getcol dfEmptyRows "Overall Score" = [] ∧
    nRows dfEmptyRows = 0 ∧
    hascol dfEmptyRows "Overall Score" = true ∧
    execSummary dfEmptyRows = some ⟨0, none, 0, 0, 0⟩ ∧
    topPerformersPct dfEmptyRows = none :=
  ⟨by decide, rfl, by decide,
   (C6_empty_dataset_behaviour dfEmptyRows (by decide) rfl).1 (by decide),
   (C6_empty_dataset_behaviour dfEmptyRows (by decide) rfl).2⟩

/-- C7: whenever both Three-second video views and Impressions are present,
the thumb-stop rate of a row is `three_second_views / impressions * 100`
rounded to 2 decimals, and the hook rate column repeats it; the scenario row
(impressions 10000, three-second views 500) yields exactly 5.00. -/
theorem C7_hook_rate_formula (bm : Benchmarks) (df : Frame)
    (h3 : hascol df "Three-second video views" = true)
    (hI : hascol df "Impressions" = true) :
    (∀ (i : ℕ) (tsv imp : ℚ), 0 < imp →
      (getcol df "Three-second video views")[i]? = some (Val.num tsv) →
      (getcol df "Impressions")[i]? = some (Val.num imp) →
      (getcol (calculate_motion_scores bm df) "Thumb-stop Rate (%)")[i]? =
        some (Val.num (roundTo 2 (tsv / imp * 100))) ∧
      (getcol (calculate_motion_scores bm df) "Hook Rate (%)")[i]? =
        some (Val.num (roundTo 2 (tsv / imp * 100)))) ∧
    (getcol (calculate_motion_scores defaultBenchmarks dfScenario1)
        "Thumb-stop Rate (%)" = [Val.num 5] ∧
      getcol (calculate_motion_scores defaultBenchmarks dfScenario1)
        "Hook Rate (%)" = [Val.num 5]) := by
  refine ⟨?_, ?_, ?_⟩
  · intro i tsv imp him h1 h2
    have hrate : (getcol (calculate_motion_scores bm df) "Thumb-stop Rate (%)")[i]? =
        some (Val.num (roundTo 2 (tsv / imp * 100))) := by
      rw [(calc_thumb_cols bm df h3 hI).1]
      have h := zipWith_getElem?
        (fun a b => Val.num (roundTo 2 (a.toQ / b.toQ * 100)))
        (getcol df "Three-second video views") (getcol df "Impressions") i
        (Val.num tsv) (Val.num imp) h1 h2
      rw [h]
      dsimp only [Val.toQ]
    refine ⟨hrate, ?_⟩
    rw [calc_hook_eq_thumb bm df h3 hI]
    exact hrate
  · rw [(calc_thumb_cols defaultBenchmarks dfScenario1 (by decide) (by decide)).1]
    decide
  · rw [calc_hook_eq_thumb defaultBenchmarks dfScenario1 (by decide) (by decide),
      (calc_thumb_cols defaultBenchmarks dfScenario1 (by decide) (by decide)).1]
    decide

/-- Witness for C7 at the scenario fixture, row 0. -/
theorem C7_hook_rate_formula_witness :
    hascol dfScenario1 "Three-second video views" = true ∧
    hascol dfScenario1 "Impressions" = true ∧
    (0 : ℚ) < 10000 ∧
    (getcol (calculate_motion_scores defaultBenchmarks dfScenario1)
        "Thumb-stop Rate (%)")[0]? = some (Val.num (roundTo 2 (500 / 10000 * 100))) :=
  ⟨by decide, by decide, by norm_num,
   ((C7_hook_rate_formula defaultBenchmarks dfScenario1 (by decide) (by decide)).1
     0 500 10000 (by norm_num) (by decide) (by decide)).1⟩

/-- C9 counterexample: configuring with a zero or negative requested
threshold does not fail — the sliders are total and simply confine the value
to their positive range; there is no InvalidConfig failure anywhere. -/
theorem C9_counterexample_config_never_rejects :
    updateBenchmarks 0 (-1) 0 0 = ⟨10, 3, 20, 1 / 2, 25, 12⟩ := by decide

/-- C9 amended: zero or negative benchmark thresholds are unrepresentable
rather than rejected — every configuration the sliders can produce, and the
default configuration, carries strictly positive values for all four
thresholds used as divisors, so score computation never sees a nonpositive
benchmark; no InvalidConfig failure is ever raised. -/
theorem C9_sliders_keep_benchmarks_positive (tsr hr hld c : ℚ) :
    0 < (updateBenchmarks tsr hr hld c).thumb_stop_rate ∧
    0 < (updateBenchmarks tsr hr hld c).hook_rate ∧
    0 < (updateBenchmarks tsr hr hld c).hold_rate ∧
    0 < (updateBenchmarks tsr hr hld c).ctr ∧
    0 < defaultBenchmarks.thumb_stop_rate ∧
    0 < defaultBenchmarks.hook_rate ∧
    0 < defaultBenchmarks.hold_rate ∧
    0 < defaultBenchmarks.ctr := by
  refine ⟨?_, ?_, ?_, ?_, by norm_num [defaultBenchmarks], by norm_num [defaultBenchmarks],
    by norm_num [defaultBenchmarks], by norm_num [defaultBenchmarks]⟩ <;>
    · simp only [updateBenchmarks, slider]
      exact lt_of_lt_of_le (by norm_num) (le_max_left _ _)

/-- C10: on any input table whose column names avoid the ten derived names,
`calculate_motion_scores` returns the very table it was given extended with
derived columns appended at the end — every pre-existing column keeps its
position and its values unchanged. -/
theorem C10_augments_input_in_place (bm : Benchmarks) (df : Frame)
    (h : ∀ d ∈ derivedNames, hascol df d = false) :
    (∃ e : Frame, calculate_motion_scores bm df = df ++ e) ∧
    (∀ c, hascol df c = true →
      getcol (calculate_motion_scores bm df) c = getcol df c ∧
      hascol (calculate_motion_scores bm df) c = true) := by
  refine ⟨calc_append_only bm df h, ?_⟩
  intro c hc
  have hnd : c ∉ derivedNames := by
    intro hmem
    rw [h c hmem] at hc
    simp at hc
  obtain ⟨hg, hh⟩ := getcol_calc_not_derived bm df hnd
  exact ⟨hg, by rw [hh]; exact hc⟩

/-- Witness for C10 at the full-input fixture, checking the Impressions
column is preserved. -/
theorem C10_augments_input_in_place_witness :
    (∀ d ∈ derivedNames, hascol dfAll d = false) ∧
    (∃ e : Frame, calculate_motion_scores defaultBenchmarks dfAll = dfAll ++ e) ∧
    getcol (calculate_motion_scores defaultBenchmarks dfAll) "Impressions"
      = getcol dfAll "Impressions" :=
  ⟨by decide,
   (C10_augments_input_in_place defaultBenchmarks dfAll (by decide)).1,
   ((C10_augments_input_in_place defaultBenchmarks dfAll (by decide)).2
     "Impressions" (by decide)).1⟩

set_option maxHeartbeats 3200000 in
/-- C8: insight evaluation fires every applicable rule independently (the
paired elif branches have mutually exclusive predicates for a positive
benchmark), returns them in rule-declaration order — thumb-stop vs benchmark,
then hold rate, then CTR, then average watch time — with the canonical
thresholds (< 0.7 benchmark critical, > 1.3 benchmark success, hold < 20
warning, hold > 40 success, ctr < 0.5 warning, watch < 5 critical,
watch > 15 success), each message interpolating the record's concrete
values. -/
theorem C8_insight_rules_independent_ordered (bm : Benchmarks) (row : InsightRow)
    (hb : 0 < bm.thumb_stop_rate) :
    generate_insights bm row =
      (match row.thumbRate with
       | none => []
       | some rate =>
         if rate < bm.thumb_stop_rate * (7 / 10) then
           [⟨"critical", "⚠️ Thumb-stop rate (" ++ fmtFixed 1 rate ++
             "%) is significantly below benchmark (" ++ pyStr bm.thumb_stop_rate ++
             "%). Consider a more engaging first frame."⟩]
         else []) ++
      (match row.thumbRate with
       | none => []
       | some rate =>
         if bm.thumb_stop_rate * (13 / 10) < rate then
           [⟨"success", "🎯 Excellent thumb-stop rate (" ++ fmtFixed 1 rate ++
             "%)! This opening is " ++ fmtFixed 0 ((rate / bm.thumb_stop_rate - 1) * 100) ++
             "% above benchmark."⟩]
         else []) ++
      (match row.holdRate with
       | none => []
       | some h =>
         if h < 20 then
           [⟨"warning", "📉 Low hold rate (" ++ fmtFixed 1 h ++
             "%). The content loses viewers quickly after the hook. Review pacing between 3-15 seconds."⟩]
         else []) ++
      (match row.holdRate with
       | none => []
       | some h =>
         if 40 < h then
           [⟨"success", "💪 Strong hold rate (" ++ fmtFixed 1 h ++
             "%). This creative maintains attention exceptionally well."⟩]
         else []) ++
      (match row.ctrPct with
       | none => []
       | some c =>
         if c < 1 / 2 then
           [⟨"warning", "🔗 Low CTR (" ++ fmtFixed 2 c ++
             "%). The CTA may need to be stronger or appear earlier."⟩]
         else []) ++
      (match row.avgWatchTime with
       | none => []
       | some awt =>
         if awt < 5 then
           [⟨"critical", "⏱️ Very low average watch time (" ++ fmtFixed 1 awt ++
             "s). This creative needs significant optimization."⟩]
         else []) ++
      (match row.avgWatchTime with
       | none => []
       | some awt =>
         if 15 < awt then
           [⟨"success", "⭐ Exceptional watch time (" ++ fmtFixed 1 awt ++
             "s). Use this as a template for other creatives."⟩]
         else []) := by
  obtain ⟨tr, hr, cp, wt⟩ := row
  unfold generate_insights
  cases tr <;> cases hr <;> cases cp <;> cases wt <;>
    · dsimp only
      first
      | rfl
      | (split_ifs <;> first | rfl | (exfalso; linarith))

/-- Witness for C8: a record with thumb-stop 10 (critical under the default
benchmark 25), hold 50 (success), CTR 0.25 (warning) and watch time 20
(success) fires all four applicable rules in declaration order with the
interpolated values. -/
theorem C8_insight_rules_independent_ordered_witness :
    0 < defaultBenchmarks.thumb_stop_rate ∧
    generate_insights defaultBenchmarks ⟨some 10, some 50, some (1 / 4), some 20⟩ =
      [⟨"critical", "⚠️ Thumb-stop rate (10.0%) is significantly below benchmark (25%). Consider a more engaging first frame."⟩,
       ⟨"success", "💪 Strong hold rate (50.0%). This creative maintains attention exceptionally well."⟩,
       ⟨"warning", "🔗 Low CTR (0.25%). The CTA may need to be stronger or appear earlier."⟩,
       ⟨"success", "⭐ Exceptional watch time (20.0s). Use this as a template for other creatives."⟩] := by
  refine ⟨by norm_num [defaultBenchmarks], ?_⟩
  rw [C8_insight_rules_independent_ordered defaultBenchmarks
    ⟨some 10, some 50, some (1 / 4), some 20⟩ (by norm_num [defaultBenchmarks])]
  decide
